import Mathlib

/-!
Verification development for `wg_victorinox.py`, a single-file WireGuard
peer-management script.  The script is embedded shallowly: every external
effect (subprocess calls, file reads and writes, QR-image construction,
SMTP traffic) is either an oracle supplied by an `Env` record or an entry
appended to an explicit event trace, and every function of the script
becomes a pure Lean function over that environment and a threaded state.
Python exceptions become an `Option PyError` component of each result: the
state reached before the exception is kept, mirroring the fact that side
effects already performed are not rolled back when an exception propagates.
-/

namespace WgVictorinox

/-- Python `str.isspace` characters relevant to `str.strip()` and `str.split()`:
space, tab, newline, carriage return, vertical tab, form feed. -/
def pyIsSpace (c : Char) : Bool :=
  c = ' ' || c = '\t' || c = '\n' || c = '\r' || c = '\x0b' || c = '\x0c'

/-- Python `s.strip()`: remove leading and trailing whitespace. -/
def pyStrip (s : String) : String :=
  String.mk (((s.toList.dropWhile pyIsSpace).reverse.dropWhile pyIsSpace).reverse)

/-- Split a character list at every occurrence of `c`, keeping empty pieces;
this is Python `s.split(sep)` for a one-character separator `sep`
(both the `"\n"` and the `"\t"` splits of the script are one-character). -/
def splitOnChar (c : Char) : List Char → List (List Char)
  | [] => [[]]
  | x :: xs =>
    if x = c then [] :: splitOnChar c xs
    else
      match splitOnChar c xs with
      | [] => [[x]]
      | g :: gs => (x :: g) :: gs

/-- Python `s.split(sep)` for a one-character separator. -/
def pySplit1 (s : String) (c : Char) : List String :=
  (splitOnChar c s.toList).map (fun l => String.mk l)

/-- Helper for `pyWsSplit`: accumulate the current token (reversed) while
scanning the remaining characters. -/
def pyWsSplitAux : List Char → List Char → List String
  | acc, [] => if acc = [] then [] else [String.mk acc.reverse]
  | acc, c :: cs =>
    if pyIsSpace c then
      if acc = [] then pyWsSplitAux [] cs
      else String.mk acc.reverse :: pyWsSplitAux [] cs
    else pyWsSplitAux (c :: acc) cs

/-- Python `s.split()` with no argument: split on whitespace runs and drop
empty tokens.  This is what `cmd.split()` does before `subprocess.run`. -/
def pyWsSplit (s : String) : List String :=
  pyWsSplitAux [] s.toList

/-- Python `s[:n]` on a string: the first `n` characters. -/
def pyTake (s : String) (n : Nat) : String :=
  String.mk (s.toList.take n)

/-- Model of the external `qrcode` library image object.  Per the QR
standard the encoded image determines its payload text, which is exactly
what `qrcode.make(data)` stores and what a scanner recovers. -/
structure QrImage where
  payload : String
  deriving DecidableEq

/-- `qrcode.make(data)` / `qr.add_data(data); qr.make_image()`: build the
visual encoding carrying exactly `data`. -/
def qrMake (data : String) : QrImage := ⟨data⟩

/-- Scanning (decoding) a QR image recovers its payload. -/
def qrDecode (img : QrImage) : String := img.payload

/-- The Python exceptions the script can raise: `CalledProcessError` from
`subprocess` with `check=True` or `check_output`, `FileNotFoundError` or
`IOError` from `open`, `IndexError` from out-of-range list indexing, and
`SMTPException` from the mail session. -/
inductive PyError where
  | calledProcessError
  | fileNotFound
  | indexError
  | smtpError
  deriving DecidableEq

/-- Externally observable actions of one run of the script. -/
inductive Event where
  | fileWrite (path content : String)
  | runCmd (argv : List String)
  | qrBuilt (img : QrImage)
  | smtpLogin (user password : String)
  | emailSent (sender recipient body attachment : String)
  deriving DecidableEq

/-- Oracles for the external collaborators: `checkOutput` is
`subprocess.check_output` keyed by argv (`none` = non-zero exit),
`pubkeyOf` is `wg pubkey` fed the private key on stdin, `runOk` tells
whether `subprocess.run(argv, check=True)` exits 0, `png` is the PNG
serialization the `qrcode` library writes for a given payload, and the two
SMTP flags tell whether the login phase and the send phase succeed. -/
structure Env where
  checkOutput : List String → Option String
  pubkeyOf : String → Option String
  runOk : List String → Bool
  png : String → String
  smtpLoginOk : Bool
  smtpSendOk : Bool

/-- Threaded state: the file system (newest write first) and the event
trace so far. -/
structure St where
  fs : List (String × String)
  events : List Event
  deriving DecidableEq

/-- `open(path, "w"); f.write(content)`: record the write and update the
file system. -/
def fsWrite (st : St) (path content : String) : St :=
  ⟨(path, content) :: st.fs, st.events ++ [Event.fileWrite path content]⟩

/-- Append an observable event. -/
def emit (st : St) (e : Event) : St :=
  ⟨st.fs, st.events ++ [e]⟩

/-- Python truthiness of an optional string argument (`if not pubkey`):
`None` and the empty string are falsy. -/
def truthy : Option String → Bool
  | none => false
  | some s => s != ""

/-- The command string built at lines 28-29 of the script:
`sudo wg set {wg_interface} peer {pubkey} allowed-ips {ip_address}/24`
followed by ` --private-key {private_key_file}`. -/
def addCmdStr (wg_interface pk ip_address private_key_file : String) : String :=
  "sudo wg set " ++ wg_interface ++ " peer " ++ pk ++ " allowed-ips " ++
    ip_address ++ "/24" ++ " --private-key " ++ private_key_file

/-- The command string of `remove_peer`:
`sudo wg set {wg_interface} peer {pubkey} remove`. -/
def removeCmdStr (wg_interface pk : String) : String :=
  "sudo wg set " ++ wg_interface ++ " peer " ++ pk ++ " remove"

/-- The command string of `list_peers`: `sudo wg show {wg_interface} peers`. -/
def showCmdStr (wg_interface : String) : String :=
  "sudo wg show " ++ wg_interface ++ " peers"

/-- Result of the key-material section of `add_peer` (script lines 15-25):
either the `(privkey, pubkey)` pair plus the state after any write, or the
propagated exception with the state reached before it. -/
inductive PRes where
  | ok (privkey pubkey : String) (st : St)
  | err (st : St) (e : PyError)
  deriving DecidableEq

/-- Lines 15-25 of `add_peer`: with no (or empty) `pubkey`, run `wg genkey`,
derive the public key with `wg pubkey`, strip both, and write the private
key to `private_key_file`; otherwise read and strip the private key from
`private_key_file` and pair it with the given public key unverified. -/
def provision (pubkey : Option String) (private_key_file : String)
    (env : Env) (st : St) : PRes :=
  if !truthy pubkey then
    match env.checkOutput ["wg", "genkey"] with
    | none => PRes.err st PyError.calledProcessError
    | some gkOut =>
      match env.pubkeyOf (pyStrip gkOut) with
      | none => PRes.err st PyError.calledProcessError
      | some pkOut =>
        PRes.ok (pyStrip gkOut) (pyStrip pkOut)
          (fsWrite st private_key_file (pyStrip gkOut))
  else
    match List.lookup private_key_file st.fs with
    | none => PRes.err st PyError.fileNotFound
    | some content => PRes.ok (pyStrip content) (pubkey.getD "") st

/-- The five-line profile text built in the email branch of `add_peer`
(script lines 35-39). -/
def profileTextEmail (wg_interface privkey pubkey ip_address : String) : String :=
  "interface " ++ wg_interface ++ "\n" ++
  "private_key " ++ privkey ++ "\n" ++
  "peer " ++ pubkey ++ "\n" ++
  "allowed_ips " ++ ip_address ++ "/32" ++ "\n" ++
  "endpoint <server_ip_address>:51820" ++ "\n"

/-- The profile text built in the no-email branch of `add_peer`
(script lines 66-69); note it has no endpoint line. -/
def profileTextLocal (wg_interface privkey pubkey ip_address : String) : String :=
  "interface " ++ wg_interface ++ "\n" ++
  "private_key " ++ privkey ++ "\n" ++
  "peer " ++ pubkey ++ "\n" ++
  "allowed_ips " ++ ip_address ++ "/32" ++ "\n"

/-- The PNG file name of the email branch (script lines 49-52). -/
def pngFileName (output_dir : Option String) (pk : String) : String :=
  match output_dir with
  | some d => d ++ "/wg_client_" ++ pyTake pk 8 ++ ".png"
  | none => "wg_client_" ++ pyTake pk 8 ++ ".png"

/-- `add_peer(ip_address, private_key_file, wg_interface, pubkey=None,
output_dir=None, email=None)` of the script: provision key material, issue
the `wg set` authorization command, then either email the profile with its
QR image attached or just build the QR image locally. -/
def add_peer (ip_address private_key_file wg_interface : String)
    (pubkey output_dir email : Option String)
    (env : Env) (st : St) : St × Option PyError :=
  match provision pubkey private_key_file env st with
  | PRes.err st1 e => (st1, some e)
  | PRes.ok privkey pk st1 =>
    let argv := pyWsSplit (addCmdStr wg_interface pk ip_address private_key_file)
    let st2 := emit st1 (Event.runCmd argv)
    if env.runOk argv then
      match email with
      | some rcpt =>
        let qrData := profileTextEmail wg_interface privkey pk ip_address
        let st3 := emit st2 (Event.qrBuilt (qrMake qrData))
        let filename := pngFileName output_dir pk
        let st4 := fsWrite st3 filename (env.png qrData)
        match List.lookup filename st4.fs with
        | none => (st4, some PyError.fileNotFound)
        | some imgBytes =>
          if env.smtpLoginOk then
            let st5 := emit st4
              (Event.smtpLogin "your_email@example.com" "your_email_password")
            if env.smtpSendOk then
              (emit st5 (Event.emailSent "your_email@example.com" rcpt qrData imgBytes),
               none)
            else (st5, some PyError.smtpError)
          else (st4, some PyError.smtpError)
      | none =>
        let qrData := profileTextLocal wg_interface privkey pk ip_address
        (emit st2 (Event.qrBuilt (qrMake qrData)), none)
    else (st2, some PyError.calledProcessError)

/-- `remove_peer(pubkey, wg_interface)`: issue the `wg set ... remove`
command with `check=True`. -/
def remove_peer (pubkey wg_interface : String) (env : Env) (st : St) :
    St × Option PyError :=
  let argv := pyWsSplit (removeCmdStr wg_interface pubkey)
  let st1 := emit st (Event.runCmd argv)
  if env.runOk argv then (st1, none) else (st1, some PyError.calledProcessError)

/-- The list comprehension of `list_peers`:
`[line.split("\t")[1] for line in lines]`; Python raises `IndexError` at
the first line whose tab-split has fewer than two fields. -/
def parsePeerLines : List String → Except PyError (List String)
  | [] => Except.ok []
  | line :: rest =>
    match (pySplit1 line '\t').get? 1 with
    | none => Except.error PyError.indexError
    | some pk =>
      match parsePeerLines rest with
      | Except.error e => Except.error e
      | Except.ok pks => Except.ok (pk :: pks)

/-- `list_peers(wg_interface)`: run `sudo wg show {wg_interface} peers`,
strip the output, split it into lines, and take field 1 of each
tab-split line. -/
def list_peers (wg_interface : String) (env : Env) :
    Except PyError (List String) :=
  match env.checkOutput (pyWsSplit (showCmdStr wg_interface)) with
  | none => Except.error PyError.calledProcessError
  | some output => parsePeerLines (pySplit1 (pyStrip output) '\n')

/-- One character of `json.dumps` string escaping (default `ensure_ascii`
escaping of non-ASCII code points is elided; no claim exercises it). -/
def jsonEscapeChar (c : Char) : String :=
  if c = '"' then "\\\""
  else if c = '\\' then "\\\\"
  else if c = '\n' then "\\n"
  else if c = '\t' then "\\t"
  else if c = '\r' then "\\r"
  else if c = '\x08' then "\\b"
  else if c = '\x0c' then "\\f"
  else if c.toNat < 32 then
    "\\u00" ++ String.mk
      [if c.toNat / 16 < 10 then Char.ofNat (48 + c.toNat / 16)
       else Char.ofNat (87 + c.toNat / 16),
       if c.toNat % 16 < 10 then Char.ofNat (48 + c.toNat % 16)
       else Char.ofNat (87 + c.toNat % 16)]
  else String.mk [c]

/-- `json.dumps` of one string. -/
def jsonStr (s : String) : String :=
  "\"" ++ s.toList.foldl (fun acc c => acc ++ jsonEscapeChar c) "" ++ "\""

/-- Join with the default `json.dump` item separator. -/
def joinComma : List String → String
  | [] => ""
  | [x] => x
  | x :: y :: xs => x ++ ", " ++ joinComma (y :: xs)

/-- `json.dump` of a list of strings. -/
def jsonDumpList (xs : List String) : String :=
  "[" ++ joinComma (xs.map jsonStr) ++ "]"

/-- `save_peers(wg_interface, filename)`: query `list_peers` and dump the
result as JSON to `filename`, overwriting it. -/
def save_peers (wg_interface filename : String) (env : Env) (st : St) :
    St × Option PyError :=
  match list_peers wg_interface env with
  | Except.error e => (st, some e)
  | Except.ok peer_list => (fsWrite st filename (jsonDumpList peer_list), none)

/-- The parsed command-line arguments of `main` (argparse: every listed
positional is required; fields not used by a subcommand are ignored). -/
structure Args where
  command : String
  pubkey : String
  ip_address : String
  private_key_file : String
  wg_interface : String
  filename : String
  deriving DecidableEq

/-- The dispatch at the end of `main`.  Faithful to the script: the `add`
branch passes its four arguments positionally, so they land in `add_peer`
as `ip_address := args.pubkey`, `private_key_file := args.ip_address`,
`wg_interface := args.private_key_file`, `pubkey := args.wg_interface`;
the `list` branch executes `peer_list = list`, which merely names the
Python builtin and has no effect; there is no branch for `save`. -/
def mainDispatch (a : Args) (env : Env) (st : St) : St × Option PyError :=
  if a.command = "add" then
    add_peer a.pubkey a.ip_address a.private_key_file
      (some a.wg_interface) none none env st
  else if a.command = "remove" then
    remove_peer a.pubkey a.wg_interface env st
  else if a.command = "list" then
    (st, none)
  else
    (st, none)

/-- Process exit status: 0 when no exception propagated out of `main`,
non-zero otherwise. -/
def exitStatus (r : St × Option PyError) : Nat :=
  match r.2 with
  | none => 0
  | some _ => 1

/-- Semantics of the control-surface command `wg set <if> peer <pk> remove`
on the ordered peer set of one interface, as the spec describes the
underlying facility: the named peer is dropped and removing an absent peer
is a successful no-op. -/
def applyRemove (peers : List String) (pk : String) : List String :=
  peers.filter (fun q => q != pk)

/-- The SMTP login credentials occurring in a trace. -/
def loginCreds (evs : List Event) : List (String × String) :=
  evs.filterMap (fun e =>
    match e with
    | Event.smtpLogin u p => some (u, p)
    | _ => none)

/-- A concrete environment where every external collaborator succeeds. -/
def demoEnv : Env :=
  ⟨fun _ => some "GENKEY", fun _ => some "DERIVEDPK", fun _ => true,
   fun s => "PNG:" ++ s, true, true⟩

/-- A concrete environment whose `wg show` output has two tab-separated
lines. -/
def listEnv : Env :=
  ⟨fun _ => some "peerA\tPK1\npeerB\tPK2", fun _ => some "DERIVEDPK",
   fun _ => true, fun s => "PNG:" ++ s, true, true⟩

/-- A concrete environment whose `wg show` output is a single line with no
tab character. -/
def noTabEnv : Env :=
  ⟨fun _ => some "PUBKEYNOTAB", fun _ => some "DERIVEDPK", fun _ => true,
   fun s => "PNG:" ++ s, true, true⟩

/-- A concrete environment where the SMTP send phase fails after a
successful login. -/
def sendFailEnv : Env :=
  ⟨fun _ => some "GENKEY", fun _ => some "DERIVEDPK", fun _ => true,
   fun s => "PNG:" ++ s, true, false⟩

/-! ### Helper lemmas -/

theorem toList_app (a b : String) : (a ++ b).toList = a.toList ++ b.toList := by
  cases a
  cases b
  rfl

theorem mk_app (l1 l2 : List Char) :
    String.mk (l1 ++ l2) = String.mk l1 ++ String.mk l2 := rfl

theorem mk_toList (s : String) : String.mk s.toList = s := by
  cases s
  rfl

theorem mk_nil : String.mk [] = "" := rfl

theorem data_app (a b : String) : (a ++ b).data = a.data ++ b.data := by
  cases a
  cases b
  rfl

theorem str_ext {a b : String} (h : a.data = b.data) : a = b := by
  cases a
  cases b
  cases h
  rfl

theorem nl_toList : ("\n" : String).toList = ['\n'] := rfl

theorem splitOnChar_not_mem {c : Char} {l : List Char} (h : c ∉ l) :
    splitOnChar c l = [l] := by
  induction l with
  | nil => rfl
  | cons x xs ih =>
    have hx : ¬ x = c := fun e => h (by simp [e])
    have hxs : c ∉ xs := fun m => h (List.mem_cons_of_mem _ m)
    simp [splitOnChar, hx, ih hxs]

theorem splitOnChar_append {c : Char} {xs : List Char} (ys : List Char)
    (h : c ∉ xs) : splitOnChar c (xs ++ c :: ys) = xs :: splitOnChar c ys := by
  induction xs with
  | nil => simp [splitOnChar]
  | cons x t ih =>
    have hx : ¬ x = c := fun e => h (by simp [e])
    have ht : c ∉ t := fun m => h (List.mem_cons_of_mem _ m)
    simp [splitOnChar, hx, ih ht]

theorem lookup_cons_self (k : String) (v : String) (l : List (String × String)) :
    List.lookup k ((k, v) :: l) = some v := by
  simp [List.lookup]

/-- The reuse path of `provision`: a non-empty public key and a readable
private-key file give back the stripped file content paired with the given
key, with the state untouched. -/
theorem provision_reuse_eq (pk file : String) (env : Env) (st : St) (b : String)
    (h1 : pk ≠ "") (h2 : List.lookup file st.fs = some b) :
    provision (some pk) file env st = PRes.ok (pyStrip b) pk st := by
  have ht : truthy (some pk) = true := by
    simp only [truthy]
    exact bne_iff_ne.mpr h1
  simp [provision, ht, h2]

/-- On the error path `provision` leaves the state untouched. -/
theorem provision_err_st (pubkey : Option String) (file : String) (env : Env)
    (st st1 : St) (e : PyError) :
    provision pubkey file env st = PRes.err st1 e → st1 = st := by
  unfold provision
  intro h
  repeat' split at h
  all_goals first
    | (cases h; rfl)
    | cases h

/-- `provision` either fails with the state untouched, succeeds with the
state untouched (reuse path), or succeeds having written exactly the
private-key file (generation path). -/
theorem provision_cases (pubkey : Option String) (file : String) (env : Env)
    (st : St) :
    (∃ e, provision pubkey file env st = PRes.err st e) ∨
    (∃ a b, provision pubkey file env st = PRes.ok a b st) ∨
    (∃ a b c, provision pubkey file env st = PRes.ok a b (fsWrite st file c)) := by
  unfold provision
  repeat' split
  all_goals first
    | exact Or.inl ⟨_, rfl⟩
    | exact Or.inr (Or.inl ⟨_, _, rfl⟩)
    | exact Or.inr (Or.inr ⟨_, _, _, rfl⟩)

theorem applyRemove_idem (peers : List String) (pk : String) :
    applyRemove (applyRemove peers pk) pk = applyRemove peers pk := by
  simp [applyRemove, List.filter_filter]

theorem applyRemove_not_mem {peers : List String} {pk : String}
    (h : pk ∉ peers) : applyRemove peers pk = peers := by
  apply List.filter_eq_self.mpr
  intro a ha
  exact bne_iff_ne.mpr (fun e => h (e ▸ ha))

theorem parsePeerLines_ok_tab (lines : List String) :
    ∀ (ks : List String), parsePeerLines lines = Except.ok ks →
      ∀ l ∈ lines, 2 ≤ (pySplit1 l '\t').length := by
  induction lines with
  | nil =>
    intro ks _ l hl
    cases hl
  | cons x xs ih =>
    intro ks h l hl
    simp only [parsePeerLines] at h
    cases hx : (pySplit1 x '\t').get? 1 with
    | none => rw [hx] at h; cases h
    | some pk =>
      rw [hx] at h
      cases hrest : parsePeerLines xs with
      | error e => rw [hrest] at h; cases h
      | ok pks =>
        rcases List.mem_cons.mp hl with rfl | hmem
        · by_contra hlen
          have : (pySplit1 l '\t').get? 1 = none :=
            List.get?_eq_none.mpr (by omega)
          rw [this] at hx
          cases hx
        · exact ih pks hrest l hmem

/-! ### Claims -/

/-- C1: the spec says an `add` invocation without a supplied public key
generates a key pair, persists the private key, and authorizes the derived
public key on the interface with allowed-ips `a/24`.  The function
`add_peer` does exactly that when its `pubkey` parameter is absent (second
conjunct), but `main` passes the four CLI arguments to `add_peer`
positionally misaligned, so the interface name lands in the `pubkey`
parameter: no key is ever generated, the private key is read from a file
named by the IP-address argument, and the control command authorizes peer
`wg0` on interface `/tmp/peerA.key` with allowed-ips `PEERPK/24` (first
conjunct evaluates the dispatch at that failing input). -/
theorem add_dispatch_misorders_arguments :
    (mainDispatch ⟨"add", "PEERPK", "10.0.0.5", "/tmp/peerA.key", "wg0", ""⟩
        demoEnv ⟨[("10.0.0.5", "FILEKEY")], []⟩
      = (⟨[("10.0.0.5", "FILEKEY")],
          [Event.runCmd ["sudo", "wg", "set", "/tmp/peerA.key", "peer", "wg0",
             "allowed-ips", "PEERPK/24", "--private-key", "10.0.0.5"],
           Event.qrBuilt ⟨"interface /tmp/peerA.key\nprivate_key FILEKEY\npeer wg0\nallowed_ips PEERPK/32\n"⟩]⟩,
         none)) ∧
    (add_peer "10.0.0.5" "/tmp/peerA.key" "wg0" none none none demoEnv ⟨[], []⟩
      = (⟨[("/tmp/peerA.key", "GENKEY")],
          [Event.fileWrite "/tmp/peerA.key" "GENKEY",
           Event.runCmd ["sudo", "wg", "set", "wg0", "peer", "DERIVEDPK",
             "allowed-ips", "10.0.0.5/24", "--private-key", "/tmp/peerA.key"],
           Event.qrBuilt ⟨"interface wg0\nprivate_key GENKEY\npeer DERIVEDPK\nallowed_ips 10.0.0.5/32\n"⟩]⟩,
         none)) :=
  ⟨rfl, rfl⟩

/-- C2: the dispatch in `main` has no branch for the `save` command, so a
`save` invocation parses, performs nothing, and exits 0: no peer list is
queried and no file is written (first conjunct, for every environment and
state).  The `save_peers` function itself, which `main` never calls, does
write the JSON dump of the freshly queried peer list (second conjunct). -/
theorem save_command_not_dispatched :
    (∀ (env : Env) (st : St) (a : Args), a.command = "save" →
      mainDispatch a env st = (st, none)) ∧
    save_peers "wg0" "/tmp/peers.json" listEnv ⟨[], []⟩
      = (⟨[("/tmp/peers.json", "[\"PK1\", \"PK2\"]")],
          [Event.fileWrite "/tmp/peers.json" "[\"PK1\", \"PK2\"]"]⟩, none) := by
  constructor
  · intro env st a h
    simp [mainDispatch, h]
  · rfl

theorem save_command_not_dispatched_witness :
    mainDispatch ⟨"save", "", "", "", "wg0", "/tmp/peers.json"⟩ demoEnv ⟨[], []⟩
      = (⟨[], []⟩, none) :=
  save_command_not_dispatched.1 demoEnv ⟨[], []⟩
    ⟨"save", "", "", "", "wg0", "/tmp/peers.json"⟩ rfl

/-- C3: the `list` branch of `main` executes `peer_list = list`, which
binds the Python builtin `list` and never calls `list_peers`, so the
`list` command produces no result or output whatsoever (first conjunct).
The `list_peers` function itself, which `main` never calls, does return
the ordered sequence of parsed keys, preserving the query order (second
conjunct). -/
theorem list_command_produces_nothing :
    (∀ (env : Env) (st : St) (a : Args), a.command = "list" →
      mainDispatch a env st = (st, none)) ∧
    list_peers "wg0" listEnv = Except.ok ["PK1", "PK2"] := by
  constructor
  · intro env st a h
    simp [mainDispatch, h]
  · rfl

theorem list_command_produces_nothing_witness :
    mainDispatch ⟨"list", "", "", "", "wg0", ""⟩ demoEnv ⟨[], []⟩
      = (⟨[], []⟩, none) :=
  list_command_produces_nothing.1 demoEnv ⟨[], []⟩
    ⟨"list", "", "", "", "wg0", ""⟩ rfl

/-- C4 counterexample: with stored bytes `"SECRETKEY\n"` the reuse path
returns private key `"SECRETKEY"`, which is not the stored bytes — the
script strips surrounding whitespace from the file content. -/
theorem provision_reuse_strips_cex :
    provision (some "PK") "/tmp/peerA.key" demoEnv
        ⟨[("/tmp/peerA.key", "SECRETKEY\n")], []⟩
      = PRes.ok "SECRETKEY" "PK" ⟨[("/tmp/peerA.key", "SECRETKEY\n")], []⟩ ∧
    ("SECRETKEY" : String) ≠ "SECRETKEY\n" :=
  ⟨rfl, by decide⟩

/-- C4 amended: provisioning with an existing public key `pk` returns a
pair whose public key is `pk` and whose private key is the stored bytes
with surrounding whitespace stripped (hence equal to the stored bytes
whenever they carry no surrounding whitespace, in particular when they
were written by the generation path of this same script), and the state —
file system and event trace — is untouched: no file write happens. -/
theorem provision_reuse_returns_stored_key :
    ∀ (pk file : String) (env : Env) (st : St) (b : String),
      pk ≠ "" →
      List.lookup file st.fs = some b →
      provision (some pk) file env st = PRes.ok (pyStrip b) pk st :=
  fun pk file env st b h1 h2 => provision_reuse_eq pk file env st b h1 h2

theorem provision_reuse_returns_stored_key_witness :
    provision (some "PK") "/tmp/k" demoEnv ⟨[("/tmp/k", "SECRETKEY")], []⟩
      = PRes.ok "SECRETKEY" "PK" ⟨[("/tmp/k", "SECRETKEY")], []⟩ :=
  provision_reuse_returns_stored_key "PK" "/tmp/k" demoEnv
    ⟨[("/tmp/k", "SECRETKEY")], []⟩ "SECRETKEY" (by decide) rfl

/-- C5 counterexample: a profile build without a delivery recipient renders
only four lines — the endpoint line is missing — so the claimed fixed five
line block does not hold for every profile build.  The first conjunct
evaluates `add_peer` without a recipient at a concrete input and exhibits
the QR payload; the second splits that payload at newlines: four lines
followed by the empty piece left by the final newline. -/
theorem profile_five_lines_cex :
    (add_peer "10.0.0.5" "/tmp/k" "wg0" (some "PK") none none demoEnv
        ⟨[("/tmp/k", "SECRETKEY")], []⟩).1.events
      = [Event.runCmd ["sudo", "wg", "set", "wg0", "peer", "PK",
           "allowed-ips", "10.0.0.5/24", "--private-key", "/tmp/k"],
         Event.qrBuilt ⟨"interface wg0\nprivate_key SECRETKEY\npeer PK\nallowed_ips 10.0.0.5/32\n"⟩] ∧
    pySplit1 "interface wg0\nprivate_key SECRETKEY\npeer PK\nallowed_ips 10.0.0.5/32\n" '\n'
      = ["interface wg0", "private_key SECRETKEY", "peer PK",
         "allowed_ips 10.0.0.5/32", ""] :=
  ⟨rfl, rfl⟩

/-- C5 amended: with a delivery recipient the rendered profile is the fixed
five-line block (interface, private key, peer, allowed-address as a
single-host `/32` mask, endpoint) and without a recipient it is the same
block with the endpoint line omitted — four lines; in both cases the QR
encoding carries exactly the rendered text (the final `""` piece of each
split is the empty remainder after the terminating newline).  The last two
conjuncts evaluate `add_peer` on both branches at a concrete input and show
the built QR image is the corresponding rendered text. -/
theorem profile_block_lines :
    ∀ (wg priv pub ip : String),
      '\n' ∉ wg.toList → '\n' ∉ priv.toList → '\n' ∉ pub.toList →
      '\n' ∉ ip.toList →
      pySplit1 (profileTextEmail wg priv pub ip) '\n'
        = ["interface " ++ wg, "private_key " ++ priv, "peer " ++ pub,
           "allowed_ips " ++ ip ++ "/32", "endpoint <server_ip_address>:51820",
           ""] ∧
      pySplit1 (profileTextLocal wg priv pub ip) '\n'
        = ["interface " ++ wg, "private_key " ++ priv, "peer " ++ pub,
           "allowed_ips " ++ ip ++ "/32", ""] ∧
      qrDecode (qrMake (profileTextEmail wg priv pub ip))
        = profileTextEmail wg priv pub ip ∧
      qrDecode (qrMake (profileTextLocal wg priv pub ip))
        = profileTextLocal wg priv pub ip ∧
      (add_peer "10.0.0.5" "/tmp/k" "wg0" (some "PK") none (some "a@b.c")
          demoEnv ⟨[("/tmp/k", "SECRETKEY")], []⟩).1.events.get? 1
        = some (Event.qrBuilt
            (qrMake (profileTextEmail "wg0" "SECRETKEY" "PK" "10.0.0.5"))) ∧
      (add_peer "10.0.0.5" "/tmp/k" "wg0" (some "PK") none none
          demoEnv ⟨[("/tmp/k", "SECRETKEY")], []⟩).1.events.get? 1
        = some (Event.qrBuilt
            (qrMake (profileTextLocal "wg0" "SECRETKEY" "PK" "10.0.0.5"))) := by
  intro wg priv pub ip h1 h2 h3 h4
  have hiw : '\n' ∉ ("interface " : String).toList ++ wg.toList := by
    rw [List.mem_append, not_or]
    exact ⟨by decide, h1⟩
  have hpv : '\n' ∉ ("private_key " : String).toList ++ priv.toList := by
    rw [List.mem_append, not_or]
    exact ⟨by decide, h2⟩
  have hpr : '\n' ∉ ("peer " : String).toList ++ pub.toList := by
    rw [List.mem_append, not_or]
    exact ⟨by decide, h3⟩
  have hai : '\n' ∉ ("allowed_ips " : String).toList ++
      (ip.toList ++ ("/32" : String).toList) := by
    rw [List.mem_append, not_or, List.mem_append, not_or]
    exact ⟨by decide, h4, by decide⟩
  have hep : '\n' ∉ ("endpoint <server_ip_address>:51820" : String).toList := by
    decide
  have hTe : (profileTextEmail wg priv pub ip).toList
      = (("interface " : String).toList ++ wg.toList) ++ '\n' ::
        ((("private_key " : String).toList ++ priv.toList) ++ '\n' ::
         ((("peer " : String).toList ++ pub.toList) ++ '\n' ::
          ((("allowed_ips " : String).toList ++
              (ip.toList ++ ("/32" : String).toList)) ++ '\n' ::
           (("endpoint <server_ip_address>:51820" : String).toList ++
              '\n' :: ([] : List Char))))) := by
    simp [profileTextEmail, toList_app, nl_toList, List.append_assoc]
  have hTl : (profileTextLocal wg priv pub ip).toList
      = (("interface " : String).toList ++ wg.toList) ++ '\n' ::
        ((("private_key " : String).toList ++ priv.toList) ++ '\n' ::
         ((("peer " : String).toList ++ pub.toList) ++ '\n' ::
          ((("allowed_ips " : String).toList ++
              (ip.toList ++ ("/32" : String).toList)) ++
             '\n' :: ([] : List Char)))) := by
    simp [profileTextLocal, toList_app, nl_toList, List.append_assoc]
  refine ⟨?_, ?_, rfl, rfl, rfl, rfl⟩
  · unfold pySplit1
    rw [hTe, splitOnChar_append _ hiw, splitOnChar_append _ hpv,
      splitOnChar_append _ hpr, splitOnChar_append _ hai,
      splitOnChar_append _ hep]
    simp only [splitOnChar, List.map_cons, List.map_nil, List.cons.injEq,
      and_true]
    repeat' apply And.intro
    all_goals rfl
  · unfold pySplit1
    rw [hTl, splitOnChar_append _ hiw, splitOnChar_append _ hpv,
      splitOnChar_append _ hpr, splitOnChar_append _ hai]
    simp only [splitOnChar, List.map_cons, List.map_nil, List.cons.injEq,
      and_true]
    repeat' apply And.intro
    all_goals rfl

theorem profile_block_lines_witness :
    pySplit1 (profileTextEmail "wg0" "SECRETKEY" "PK" "10.0.0.5") '\n'
      = ["interface wg0", "private_key SECRETKEY", "peer PK",
         "allowed_ips 10.0.0.5/32", "endpoint <server_ip_address>:51820",
         ""] ∧
    pySplit1 (profileTextLocal "wg0" "SECRETKEY" "PK" "10.0.0.5") '\n'
      = ["interface wg0", "private_key SECRETKEY", "peer PK",
         "allowed_ips 10.0.0.5/32", ""] ∧
    qrDecode (qrMake (profileTextEmail "wg0" "SECRETKEY" "PK" "10.0.0.5"))
      = profileTextEmail "wg0" "SECRETKEY" "PK" "10.0.0.5" ∧
    qrDecode (qrMake (profileTextLocal "wg0" "SECRETKEY" "PK" "10.0.0.5"))
      = profileTextLocal "wg0" "SECRETKEY" "PK" "10.0.0.5" ∧
    (add_peer "10.0.0.5" "/tmp/k" "wg0" (some "PK") none (some "a@b.c")
        demoEnv ⟨[("/tmp/k", "SECRETKEY")], []⟩).1.events.get? 1
      = some (Event.qrBuilt
          (qrMake (profileTextEmail "wg0" "SECRETKEY" "PK" "10.0.0.5"))) ∧
    (add_peer "10.0.0.5" "/tmp/k" "wg0" (some "PK") none none
        demoEnv ⟨[("/tmp/k", "SECRETKEY")], []⟩).1.events.get? 1
      = some (Event.qrBuilt
          (qrMake (profileTextLocal "wg0" "SECRETKEY" "PK" "10.0.0.5"))) :=
  profile_block_lines "wg0" "SECRETKEY" "PK" "10.0.0.5"
    (by decide) (by decide) (by decide) (by decide)

/-- C6: `remove_peer` issues exactly the `wg set ... remove` command; when
the control surface accepts that command (which, per the semantics of the
underlying facility modelled by `applyRemove`, it always does — removing an
absent peer is a successful no-op), both the first and the second
invocation in succession raise nothing, the dispatched `remove` command
exits with status 0, the second invocation issues the same command again,
whose semantics is idempotent on the peer set, and removing a peer that was
never present leaves the peer set exactly unchanged. -/
theorem revoke_idempotent :
    ∀ (env : Env) (st : St) (pk iface : String) (peers : List String),
      env.runOk (pyWsSplit (removeCmdStr iface pk)) = true →
      (remove_peer pk iface env st).2 = none ∧
      (remove_peer pk iface env (remove_peer pk iface env st).1).2 = none ∧
      (remove_peer pk iface env (remove_peer pk iface env st).1).1.events
        = st.events ++ [Event.runCmd (pyWsSplit (removeCmdStr iface pk)),
                        Event.runCmd (pyWsSplit (removeCmdStr iface pk))] ∧
      exitStatus (mainDispatch ⟨"remove", pk, "", "", iface, ""⟩ env st) = 0 ∧
      applyRemove (applyRemove peers pk) pk = applyRemove peers pk ∧
      (pk ∉ peers → applyRemove peers pk = peers) := by
  intro env st pk iface peers h
  refine ⟨?_, ?_, ?_, ?_, applyRemove_idem peers pk,
    fun hm => applyRemove_not_mem hm⟩
  · simp [remove_peer, h]
  · simp [remove_peer, h]
  · simp [remove_peer, h, emit, List.append_assoc]
  · simp [mainDispatch, remove_peer, h, exitStatus]

theorem revoke_idempotent_witness :
    (remove_peer "PK" "wg0" demoEnv ⟨[], []⟩).2 = none ∧
    (remove_peer "PK" "wg0" demoEnv (remove_peer "PK" "wg0" demoEnv ⟨[], []⟩).1).2
      = none ∧
    (remove_peer "PK" "wg0" demoEnv
        (remove_peer "PK" "wg0" demoEnv ⟨[], []⟩).1).1.events
      = ([] : List Event) ++
          [Event.runCmd (pyWsSplit (removeCmdStr "wg0" "PK")),
           Event.runCmd (pyWsSplit (removeCmdStr "wg0" "PK"))] ∧
    exitStatus (mainDispatch ⟨"remove", "PK", "", "", "wg0", ""⟩ demoEnv
        ⟨[], []⟩) = 0 ∧
    applyRemove (applyRemove ["A", "B"] "PK") "PK"
      = applyRemove ["A", "B"] "PK" ∧
    (("PK" : String) ∉ (["A", "B"] : List String) →
      applyRemove ["A", "B"] "PK" = ["A", "B"]) :=
  revoke_idempotent demoEnv ⟨[], []⟩ "PK" "wg0" ["A", "B"] rfl

/-- C7: when the authorization command succeeds and the subsequent delivery
fails (here: the SMTP send phase after a successful login), the
`SMTPException` propagates out of `add_peer` while the trace ends exactly
with the issued authorization command, the built QR image, the written
image file, and the login — in particular no further control-surface
command (no revoke) and no other compensating action follows. -/
theorem delivery_failure_no_rollback :
    ∀ (ip file iface pk em : String) (env : Env) (st : St) (b : String),
      pk ≠ "" →
      List.lookup file st.fs = some b →
      env.runOk (pyWsSplit (addCmdStr iface pk ip file)) = true →
      env.smtpLoginOk = true →
      env.smtpSendOk = false →
      add_peer ip file iface (some pk) none (some em) env st
        = (⟨(pngFileName none pk,
              env.png (profileTextEmail iface (pyStrip b) pk ip)) :: st.fs,
            st.events ++
              [Event.runCmd (pyWsSplit (addCmdStr iface pk ip file)),
               Event.qrBuilt (qrMake (profileTextEmail iface (pyStrip b) pk ip)),
               Event.fileWrite (pngFileName none pk)
                 (env.png (profileTextEmail iface (pyStrip b) pk ip)),
               Event.smtpLogin "your_email@example.com" "your_email_password"]⟩,
           some PyError.smtpError) := by
  intro ip file iface pk em env st b h1 h2 h3 h4 h5
  unfold add_peer
  rw [provision_reuse_eq pk file env st b h1 h2]
  simp [h3, h4, h5, emit, fsWrite, lookup_cons_self, List.append_assoc]

theorem delivery_failure_no_rollback_witness :
    add_peer "10.0.0.5" "/tmp/k" "wg0" (some "PK") none (some "a@b.c")
        sendFailEnv ⟨[("/tmp/k", "SECRETKEY")], []⟩
      = (⟨[(pngFileName none "PK",
            sendFailEnv.png (profileTextEmail "wg0" (pyStrip "SECRETKEY") "PK" "10.0.0.5")),
           ("/tmp/k", "SECRETKEY")],
          [Event.runCmd (pyWsSplit (addCmdStr "wg0" "PK" "10.0.0.5" "/tmp/k")),
           Event.qrBuilt (qrMake (profileTextEmail "wg0" (pyStrip "SECRETKEY") "PK" "10.0.0.5")),
           Event.fileWrite (pngFileName none "PK")
             (sendFailEnv.png (profileTextEmail "wg0" (pyStrip "SECRETKEY") "PK" "10.0.0.5")),
           Event.smtpLogin "your_email@example.com" "your_email_password"]⟩,
         some PyError.smtpError) :=
  delivery_failure_no_rollback "10.0.0.5" "/tmp/k" "wg0" "PK" "a@b.c"
    sendFailEnv ⟨[("/tmp/k", "SECRETKEY")], []⟩ "SECRETKEY"
    (by decide) rfl rfl rfl rfl

/-- C8: decoding the visual encoding built from any profile text yields
exactly that text (first conjunct; immediate from the payload-faithful
model of the external `qrcode` library), and every QR image a run of
`add_peer` builds — on either branch — decodes to exactly the profile text
rendered from that run's interface, private key, peer key and address
(second conjunct). -/
theorem qr_encoding_roundtrip :
    (∀ t : String, qrDecode (qrMake t) = t) ∧
    (∀ (ip file iface pk : String) (em : Option String) (env : Env) (st : St)
        (b : String),
      pk ≠ "" →
      List.lookup file st.fs = some b →
      ∀ img, Event.qrBuilt img ∈
          (add_peer ip file iface (some pk) none em env st).1.events →
        Event.qrBuilt img ∈ st.events ∨
        qrDecode img = profileTextEmail iface (pyStrip b) pk ip ∨
        qrDecode img = profileTextLocal iface (pyStrip b) pk ip) := by
  constructor
  · intro t
    rfl
  · intro ip file iface pk em env st b h1 h2 img he
    unfold add_peer at he
    rw [provision_reuse_eq pk file env st b h1 h2] at he
    rcases em with _ | rcpt
    · by_cases hr : env.runOk (pyWsSplit (addCmdStr iface pk ip file)) = true <;>
        simp [hr, emit, fsWrite] at he <;>
        first
        | exact Or.inl he
        | (rcases he with he | rfl
           · exact Or.inl he
           · exact Or.inr (Or.inr rfl))
    · by_cases hr : env.runOk (pyWsSplit (addCmdStr iface pk ip file)) = true <;>
        by_cases hl : env.smtpLoginOk = true <;>
        by_cases hs : env.smtpSendOk = true <;>
        simp [hr, hl, hs, emit, fsWrite, lookup_cons_self] at he <;>
        first
        | exact Or.inl he
        | (rcases he with he | rfl
           · exact Or.inl he
           · exact Or.inr (Or.inl rfl))

theorem qr_encoding_roundtrip_witness :
    Event.qrBuilt (qrMake "interface wg0\nprivate_key SECRETKEY\npeer PK\nallowed_ips 10.0.0.5/32\n")
        ∈ (⟨[("/tmp/k", "SECRETKEY")], []⟩ : St).events ∨
      qrDecode (qrMake "interface wg0\nprivate_key SECRETKEY\npeer PK\nallowed_ips 10.0.0.5/32\n")
        = profileTextEmail "wg0" (pyStrip "SECRETKEY") "PK" "10.0.0.5" ∨
      qrDecode (qrMake "interface wg0\nprivate_key SECRETKEY\npeer PK\nallowed_ips 10.0.0.5/32\n")
        = profileTextLocal "wg0" (pyStrip "SECRETKEY") "PK" "10.0.0.5" :=
  qr_encoding_roundtrip.2 "10.0.0.5" "/tmp/k" "wg0" "PK" none demoEnv
    ⟨[("/tmp/k", "SECRETKEY")], []⟩ "SECRETKEY" (by decide) rfl
    (qrMake "interface wg0\nprivate_key SECRETKEY\npeer PK\nallowed_ips 10.0.0.5/32\n")
    (by decide)

/-- C9 counterexample: two deliveries with entirely different inputs and
entirely different environments (different oracle configurations) both
authenticate with the identical credentials embedded in the source,
`your_email@example.com` / `your_email_password` — the credentials are
constants, not externally supplied configuration, so differently
configured deliveries do not authenticate with different credentials. -/
theorem smtp_credentials_embedded_cex :
    loginCreds (add_peer "10.0.0.5" "/tmp/k" "wg0" (some "PK") none
        (some "alice@example.org") demoEnv
        ⟨[("/tmp/k", "SECRETKEY")], []⟩).1.events
      = [("your_email@example.com", "your_email_password")] ∧
    loginCreds (add_peer "192.168.7.7" "/etc/wg/other.key" "wg9"
        (some "OTHERPK") (some "/out") (some "bob@example.net") sendFailEnv
        ⟨[("/etc/wg/other.key", "OTHERSECRET")], []⟩).1.events
      = [("your_email@example.com", "your_email_password")] :=
  ⟨rfl, rfl⟩

/-- C9 amended: the credentials and the sender address used on the
outbound mail channel are the constants embedded in the source: every SMTP
login performed by any run of `add_peer` uses exactly
`your_email@example.com` / `your_email_password`, and every message sent
carries the constant sender address, regardless of every input and of the
whole environment. -/
theorem smtp_credentials_embedded :
    (∀ (ip file iface : String) (pubkey od em : Option String) (env : Env)
        (st : St) (u p : String),
      Event.smtpLogin u p ∈
          (add_peer ip file iface pubkey od em env st).1.events →
      Event.smtpLogin u p ∈ st.events ∨
        (u = "your_email@example.com" ∧ p = "your_email_password")) ∧
    (∀ (ip file iface : String) (pubkey od em : Option String) (env : Env)
        (st : St) (sdr rcp bdy att : String),
      Event.emailSent sdr rcp bdy att ∈
          (add_peer ip file iface pubkey od em env st).1.events →
      Event.emailSent sdr rcp bdy att ∈ st.events ∨
        sdr = "your_email@example.com") := by
  constructor
  · intro ip file iface pubkey od em env st u p he
    unfold add_peer at he
    rcases provision_cases pubkey file env st with ⟨er, hp⟩ | ⟨a2, b2, hp⟩ |
      ⟨a2, b2, c2, hp⟩ <;> rw [hp] at he
    · simp at he
      exact Or.inl he
    · rcases em with _ | rcpt <;>
        by_cases hr : env.runOk (pyWsSplit (addCmdStr iface b2 ip file)) = true <;>
        by_cases hl : env.smtpLoginOk = true <;>
        by_cases hs : env.smtpSendOk = true <;>
        simp [hr, hl, hs, emit, fsWrite, lookup_cons_self] at he <;>
        tauto
    · rcases em with _ | rcpt <;>
        by_cases hr : env.runOk (pyWsSplit (addCmdStr iface b2 ip file)) = true <;>
        by_cases hl : env.smtpLoginOk = true <;>
        by_cases hs : env.smtpSendOk = true <;>
        simp [hr, hl, hs, emit, fsWrite, lookup_cons_self] at he <;>
        tauto
  · intro ip file iface pubkey od em env st sdr rcp bdy att he
    unfold add_peer at he
    rcases provision_cases pubkey file env st with ⟨er, hp⟩ | ⟨a2, b2, hp⟩ |
      ⟨a2, b2, c2, hp⟩ <;> rw [hp] at he
    · simp at he
      exact Or.inl he
    · rcases em with _ | rcpt <;>
        by_cases hr : env.runOk (pyWsSplit (addCmdStr iface b2 ip file)) = true <;>
        by_cases hl : env.smtpLoginOk = true <;>
        by_cases hs : env.smtpSendOk = true <;>
        simp [hr, hl, hs, emit, fsWrite, lookup_cons_self] at he <;>
        tauto
    · rcases em with _ | rcpt <;>
        by_cases hr : env.runOk (pyWsSplit (addCmdStr iface b2 ip file)) = true <;>
        by_cases hl : env.smtpLoginOk = true <;>
        by_cases hs : env.smtpSendOk = true <;>
        simp [hr, hl, hs, emit, fsWrite, lookup_cons_self] at he <;>
        tauto

theorem smtp_credentials_embedded_witness :
    Event.smtpLogin "your_email@example.com" "your_email_password"
        ∈ (⟨[("/tmp/k", "SECRETKEY")], []⟩ : St).events ∨
      ("your_email@example.com" = "your_email@example.com" ∧
       "your_email_password" = "your_email_password") :=
  smtp_credentials_embedded.1 "10.0.0.5" "/tmp/k" "wg0" (some "PK") none
    (some "alice@example.org") demoEnv ⟨[("/tmp/k", "SECRETKEY")], []⟩
    "your_email@example.com" "your_email_password" (by decide)

/-- C10: whenever `list_peers` returns a value, every line of the stripped
and newline-split control-surface output has at least two tab-separated
fields — that is, contains a tab (first conjunct); and on an output whose
single line has no tab, `list_peers` raises `IndexError` (the blind `[1]`
indexing), not a `CalledProcessError` and not a value (second conjunct). -/
theorem list_peers_tab_totality :
    (∀ (env : Env) (iface : String) (ks : List String),
      list_peers iface env = Except.ok ks →
      ∀ out, env.checkOutput (pyWsSplit (showCmdStr iface)) = some out →
      ∀ l ∈ pySplit1 (pyStrip out) '\n', 2 ≤ (pySplit1 l '\t').length) ∧
    list_peers "wg0" noTabEnv = Except.error PyError.indexError := by
  constructor
  · intro env iface ks h out hout l hl
    unfold list_peers at h
    rw [hout] at h
    exact parsePeerLines_ok_tab (pySplit1 (pyStrip out) '\n') ks h l hl
  · rfl

theorem list_peers_tab_totality_witness :
    2 ≤ (pySplit1 "peerA\tPK1" '\t').length :=
  list_peers_tab_totality.1 listEnv "wg0" ["PK1", "PK2"] rfl
    "peerA\tPK1\npeerB\tPK2" rfl "peerA\tPK1" (by decide)

end WgVictorinox
